import Mathlib

/-!
# Verification of the choppy workflow-submission client

A shallow embedding, in Lean 4, of the orchestration logic of
`src/choppy/choppy.py` (the `call_run`, `call_query`, `call_validate`,
`call_monitor`, `call_explain`, `get_cromwell_links` functions and the
relevant part of `main`), together with theorems checking the
natural-language specification against it.

The modules `choppy/utils.py` (`kv_list_to_dict`), `choppy/cromwell.py`
(`Cromwell.explain_workflow`), `choppy/monitor.py` (the `Monitor` class)
and `choppy/validator.py` are imported by `choppy.py` but are not among
the sources; where a claim depends on them they are modelled from the
spec, each such definition carrying a doc comment that starts
`Modelled from the spec:`.  Everything else is translated directly from
`choppy.py`.
-/

namespace Choppy

/-! ## Python dictionaries

A Python `dict` with string keys, modelled as an association list in
insertion order; `dictInsert` is `d[k] = v` (update in place when the key
exists, append otherwise) and `dictLookup` is `d[k]` / `d.get(k)`. -/

def Dict := List (String × String)

def dictInsert (d : List (String × String)) (k v : String) :
    List (String × String) :=
  if d.any (fun p => p.1 = k) then
    d.map (fun p => if p.1 = k then (k, v) else p)
  else
    d ++ [(k, v)]

def dictLookup (d : List (String × String)) (k : String) : Option String :=
  (d.find? (fun p => p.1 = k)).map (fun p => p.2)

/-! ## Label codec -/

/-- Splitting one `key:value` token at its first `:`, as the label codec
does.  Tokens are assumed well-formed here (the malformed-token failure
path of the codec is not the subject of any claim below). -/
def splitKVToken (s : String) : String × String :=
  let cs := s.toList
  (String.mk (cs.takeWhile (fun c => c ≠ (':'))),
   match cs.dropWhile (fun c => c ≠ (':')) with
   | [] => ("")
   | _ :: tl => String.mk tl)

/-- Modelled from the spec: `kv_list_to_dict` lives in `choppy/utils.py`,
which is not among the sources.  Spec §4.2 (Label Codec): `parseLabels`
turns a sequence of `key:value` strings into a `LabelSet` (a mapping from
label key to label value).  The call sites in `choppy.py` line 99 show it
returns `None` for an absent (`None`) argument, which the caller replaces
with the empty dict. -/
def kv_list_to_dict (kvs : Option (List String)) :
    Option (List (String × String)) :=
  match kvs with
  | none => none
  | some l => some (l.foldl (fun d s => dictInsert d (splitKVToken s).1 (splitKVToken s).2) [])

/-! ## get_cromwell_links (`choppy.py` lines 240-249)

`get_cromwell_links(server, workflow_id, port)` returns a dict with the
two dashboard URLs. -/

def metadataLink (server : String) (port : Nat) (workflow_id : String) : String :=
  "http://" ++ server ++ ":" ++ toString port ++ "/api/workflows/v1/" ++
    workflow_id ++ "/metadata"

def timingLink (server : String) (port : Nat) (workflow_id : String) : String :=
  "http://" ++ server ++ ":" ++ toString port ++ "/api/workflows/v1/" ++
    workflow_id ++ "/timing"

def get_cromwell_links (server : String) (workflow_id : String) (port : Nat) :
    List (String × String) :=
  [(("metadata"), metadataLink server port workflow_id),
   (("timing"), timingLink server port workflow_id)]

/-! ## Exceptions and monitor-call outcomes

`call_run` (lines 116-130) wraps `call_monitor(args)` in a retry loop that
catches exactly `KeyError`.  The `Monitor` class that `call_monitor` drives
is not among the sources, so one invocation of `call_monitor` is abstracted
by an outcome: it either returns normally or raises an exception of some
class. -/

inductive ExnClass where
  | keyError (msg : String)
  | otherExn (cls : String) (msg : String)
deriving DecidableEq, Repr

inductive MonitorOutcome where
  | ok
  | exn (e : ExnClass)
deriving DecidableEq, Repr

/-- The initial retry budget of the monitoring hand-off
(`retry = 4`, `choppy.py` line 122). -/
def monitorRetryInit : Nat := 4

/-- The `while retry != 0` loop of `call_run` (lines 123-129), with
`outcomes i` the outcome of the `i`-th invocation of `call_monitor` and
`calls` the number of invocations already made.  Returns the total number
of invocations and the exception that propagates out of the loop, if any:
a normal return sets `retry = 0` (ending the loop), a `KeyError` is caught
and decrements `retry` by one, and any other exception class propagates. -/
def monitorHandoff (outcomes : Nat → MonitorOutcome) :
    Nat → Nat → Nat × Option ExnClass
  | 0, calls => (calls, none)
  | r + 1, calls =>
    match outcomes calls with
    | .ok => (calls + 1, none)
    | .exn (.keyError _) => monitorHandoff outcomes r (calls + 1)
    | .exn (.otherExn c m) => (calls + 1, some (.otherExn c m))

/-! ## Observable events of the run flow -/

inductive Event where
  | logInfo (s : String)
  | logCritical (s : String)
  | print (s : String)
  | sleep (seconds : Nat)
  | submit (labels : List (String × String))
  | monitorCall (idx : Nat)
  | printLogExit (msg : String)
deriving DecidableEq, Repr

def isMonitorCall : Event → Bool
  | .monitorCall _ => true
  | _ => false

def countMonitorCalls (trace : List Event) : Nat :=
  (trace.filter isMonitorCall).length

/-- How a flow step finishes: a normal return, `sys.exit(code)`, or a
propagating exception. -/
inductive FlowOutcome where
  | normal
  | exited (code : Nat)
  | raised (e : ExnClass)
deriving DecidableEq, Repr

/-- Python `str(e)`: the message carried by an exception. -/
def exnMessage : ExnClass → String
  | .keyError m => m
  | .otherExn _ m => m

/-- Modelled from the spec: `print_log_exit` lives in
`choppy/single_bucket.py`, which is not among the sources.  Called with
`sys_exit=False` it reports the given message and returns without
raising (spec §4.5: monitor failures are "silent to the end user (logged
only)"; §7: monitor errors after a successful submission are "logged,
not raised"). -/
def print_log_exit (msg : String) : List Event × FlowOutcome :=
  ([Event.printLogExit msg], FlowOutcome.normal)

/-- One `call_monitor` invocation as executed (`choppy.py` lines
204-217): the `Monitor` dispatch — whose internals are not among the
sources — either returns or raises (`dispatch`), and the surrounding
`try/except Exception` catches any raised exception `e` and routes it to
`print_log_exit(msg=str(e), sys_exit=False)`, after which `call_monitor`
returns normally.  Every class modelled by `ExnClass` is an `Exception`
subclass in Python, so every one is caught here. -/
def call_monitor_exec (dispatch : MonitorOutcome) : List Event × FlowOutcome :=
  match dispatch with
  | .ok => ([], FlowOutcome.normal)
  | .exn e => print_log_exit (exnMessage e)

/-- The outcome stream the retry loop of `call_run` observes when each
`call_monitor` invocation executes `call_monitor_exec` over the given
`Monitor`-dispatch outcomes: an exception propagating out of
`call_monitor` is seen as `exn`, a normal return as `ok`. -/
def composedOutcomes (dispatches : Nat → MonitorOutcome) :
    Nat → MonitorOutcome :=
  fun i =>
    match (call_monitor_exec (dispatches i)).2 with
    | FlowOutcome.raised e => MonitorOutcome.exn e
    | _ => MonitorOutcome.ok

/-! ## The `run` subcommand arguments and environment -/

/-- The argparse namespace of the `run` subparser (`choppy.py` lines
618-650), restricted to the fields `call_run`, `call_validate` and
`call_monitor` read.  `label` is `None` or a list of `key:value` tokens
(`action=append`). -/
structure RunArgs where
  wdl : String
  json : String
  validate : Bool
  label : Option (List String)
  monitor : Bool
  interval : Nat
  extra_options : Option (List String)
  verbose : Bool
  no_notify : Bool
  dependencies : Option String
  bucket : String
  disable_caching : Bool
  server : String
  username : String
  workflow_id : Option String
  daemon : Bool

/-- The external collaborators of one `call_run` invocation:
the validator's error list, the engine's submission response (its `id`
field), the Cromwell client's port, and the outcomes of successive
`call_monitor` invocations. -/
structure RunEnv where
  validatorResult : List String
  submitId : String
  cromwellPort : Nat
  monitorOutcomes : Nat → MonitorOutcome

/-- `call_validate` (`choppy.py` lines 163-181): runs the validator; on a
non-empty error list it logs a critical report joining every error string
and exits with code 1; on an empty list it reports success and returns. -/
def call_validate (args : RunArgs) (result : List String) :
    List Event × FlowOutcome :=
  if result.length ≠ 0 then
    ([Event.logCritical (args.json ++ " input file contains the following errors:\n"
        ++ String.intercalate "\n" result)],
     FlowOutcome.exited 1)
  else
    ([Event.print ("No errors found in " ++ args.wdl),
      Event.logInfo ("No errors found in " ++ args.wdl)],
     FlowOutcome.normal)

/-- The label dict submitted by `call_run` (lines 99-100):
`kv_list_to_dict(args.label)` (or `\x7b\x7d` when that is `None`), then
`labels_dict['username'] = args.username`. -/
def runLabels (args : RunArgs) : List (String × String) :=
  dictInsert ((kv_list_to_dict args.label).getD []) ("username") args.username

/-- `call_run` (`choppy.py` lines 88-130) as a trace of observable events
plus how the flow finishes and the value it returns (the submission
response, represented by its `id`).  Validation, when requested, runs
first and can exit the process; then the workflow is submitted with the
label dict of `runLabels`; the two dashboard links are printed; if
monitoring was requested the flow sleeps 5 seconds and enters the
`monitorHandoff` retry loop. -/
def call_run (args : RunArgs) (env : RunEnv) :
    List Event × FlowOutcome × Option String :=
  match (if args.validate then call_validate args env.validatorResult
         else ([], FlowOutcome.normal)) with
  | (vtrace, FlowOutcome.exited c) => (vtrace, FlowOutcome.exited c, none)
  | (vtrace, FlowOutcome.raised e) => (vtrace, FlowOutcome.raised e, none)
  | (vtrace, FlowOutcome.normal) =>
    let labels_dict := runLabels args
    let links := get_cromwell_links args.server env.submitId env.cromwellPort
    let preTrace := vtrace ++
      [Event.submit labels_dict,
       Event.print ("-------------Cromwell Links-------------"),
       Event.print ((dictLookup links ("metadata")).getD ("")),
       Event.print ((dictLookup links ("timing")).getD ("")),
       Event.logInfo (("Metadata:") ++ (dictLookup links ("metadata")).getD ("")),
       Event.logInfo (("Timing Graph:") ++ (dictLookup links ("timing")).getD (""))]
    if args.monitor then
      let handoff := monitorHandoff env.monitorOutcomes monitorRetryInit 0
      let fullTrace := preTrace ++
        [Event.sleep 5,
         Event.print ("These will also be e-mailed to you when the workflow completes.")] ++
        (List.range handoff.1).map Event.monitorCall
      match handoff.2 with
      | some e => (fullTrace, FlowOutcome.raised e, none)
      | none => (fullTrace, FlowOutcome.normal, some env.submitId)
    else
      (preTrace, FlowOutcome.normal, some env.submitId)

/-! ## call_monitor (`choppy.py` lines 195-217) -/

/-- The argparse namespace fields `call_monitor` reads. -/
structure MonitorArgs where
  workflow_id : Option String
  username : String
  interval : Nat
  verbose : Bool
  no_notify : Bool
  server : String
  daemon : Bool

/-- The constructor arguments of `Monitor(host=..., user=..., no_notify=...,
verbose=..., interval=...)`. -/
structure MonitorConfig where
  host : String
  user : String
  no_notify : Bool
  verbose : Bool
  interval : Nat
deriving DecidableEq, Repr

/-- Which `Monitor` method `call_monitor` invokes, on which configuration. -/
inductive MonitorInvocation where
  | run (m : MonitorConfig)
  | monitor_workflow (m : MonitorConfig) (workflow_id : String)
  | monitor_user_workflows (m : MonitorConfig)
deriving DecidableEq, Repr

/-- `call_monitor` (lines 195-217): with `daemon` set it constructs the
`Monitor` with `user="*"` and calls `m.run()`; otherwise it constructs it
with `user=args.username` and calls `m.monitor_workflow(args.workflow_id)`
when a workflow id was given, else `m.monitor_user_workflows()`.  Both
branches pass the same `no_notify`, `verbose` and `interval` through.
The `try/except Exception` wrapper around this dispatch (lines 204,
216-217) is identical on both branches; its effect on exception
propagation is modelled by `call_monitor_exec`. -/
def call_monitor (args : MonitorArgs) : MonitorInvocation :=
  if args.daemon then
    MonitorInvocation.run
      { host := args.server, user := ("*"), no_notify := args.no_notify,
        verbose := args.verbose, interval := args.interval }
  else
    let m : MonitorConfig :=
      { host := args.server, user := args.username, no_notify := args.no_notify,
        verbose := args.verbose, interval := args.interval }
    match args.workflow_id with
    | some wfid => MonitorInvocation.monitor_workflow m wfid
    | none => MonitorInvocation.monitor_user_workflows m

/-- The polling/notification action a `Monitor` invocation performs:
host and owner polled, the notification and verbosity switches, the tick
interval, and the target (`some id` for one workflow, `none` for all
workflows of the owner). -/
structure PollAction where
  host : String
  owner : String
  no_notify : Bool
  verbose : Bool
  interval : Nat
  target : Option String
deriving DecidableEq, Repr

/-- Modelled from the spec: the `Monitor` class lives in
`choppy/monitor.py`, which is not among the sources.  Spec §4.4: daemon
mode "differs from single-user mode only in the `owner` wildcard (`"*"`)
passed to `listWorkflows` — the polling and notification logic is
identical, which is why both must share one implementation rather than
being duplicated."  Accordingly `Monitor.run` and
`Monitor.monitor_user_workflows` denote the same polling action over the
configured owner, and `Monitor.monitor_workflow` that action restricted
to a single workflow id. -/
def invocationAction : MonitorInvocation → PollAction
  | .run m =>
    { host := m.host, owner := m.user, no_notify := m.no_notify,
      verbose := m.verbose, interval := m.interval, target := none }
  | .monitor_user_workflows m =>
    { host := m.host, owner := m.user, no_notify := m.no_notify,
      verbose := m.verbose, interval := m.interval, target := none }
  | .monitor_workflow m wfid =>
    { host := m.host, owner := m.user, no_notify := m.no_notify,
      verbose := m.verbose, interval := m.interval, target := some wfid }

/-! ## call_explain (`choppy.py` lines 252-294) -/

/-- One failed shard's stdout or stderr record, as consumed at lines
275-283 (`log["stdout"]["label"]`, `...["name"]`, `...["log"]`). -/
structure ShardLog where
  label : String
  name : String
  log : String
deriving DecidableEq, Repr

structure FailedJob where
  stdout : ShardLog
  stderr : ShardLog
deriving DecidableEq, Repr

/-- The summary record returned for a resolved workflow; `call_explain`
reads its `id` (line 286) and pretty-prints the rest (`rendered`). -/
structure WorkflowSummary where
  id : String
  rendered : String
deriving DecidableEq, Repr

/-- What the engine knows about a resolved workflow id: the summary,
the extra-parameters dict, and the failed-jobs list. -/
structure ExplainData where
  summary : WorkflowSummary
  additional : List (String × String)
  failed_jobs : List FailedJob

/-- Modelled from the spec: `Cromwell.explain_workflow` lives in
`choppy/cromwell.py`, which is not among the sources.  Spec §4.3: "Calls
`queryStatus`; if the handle does not resolve, returns `(none, \x7b\x7d, \x7b\x7d)`
signaling \"not found\" to the caller".  The resolved case is abstracted
by an engine oracle from workflow id to explain data. -/
def explain_workflow (engine : String → Option ExplainData)
    (workflow_id : String) (_include_inputs : Bool) :
    Option WorkflowSummary × List (String × String) × List FailedJob :=
  match engine workflow_id with
  | none => (none, [], [])
  | some d => (some d.summary, d.additional, d.failed_jobs)

/-- A concrete rendering of `printer.pprint` on a dict. -/
def pprintDict (d : List (String × String)) : String :=
  String.intercalate (", ") (d.map (fun p => p.1 ++ (": ") ++ p.2))

/-- The argparse namespace fields `call_explain` reads and writes. -/
structure ExplainArgs where
  workflow_id : String
  server : String
  input : Bool
  monitor : Bool

/-- `call_explain` (lines 252-294) as the list of printed lines plus the
updated argparse namespace.  A resolved workflow gets the status report,
the additional parameters when non-empty, the failed-shard logs when
non-empty, and the two Cromwell links; an unresolved one gets the single
line `Workflow not found.`.  Either way `args.monitor` is set to `True`
before returning (line 293). -/
def call_explain (engine : String → Option ExplainData) (args : ExplainArgs)
    (port : Nat) : List String × ExplainArgs :=
  match explain_workflow engine args.workflow_id args.input with
  | (some r, additional_res, stdout_res) =>
    (([("-------------Workflow Status-------------"), r.rendered] ++
      (if additional_res.length > 0 then
        [("-------------Additional Parameters-------------"), pprintDict additional_res]
       else []) ++
      (if stdout_res.length > 0 then
        stdout_res.foldr (fun log acc =>
          [("-------------Failed Stdout-------------"),
           ("Shard: ") ++ log.stdout.label,
           log.stdout.name ++ (":"),
           log.stdout.log,
           ("-------------Failed Stderr-------------"),
           ("Shard: ") ++ log.stderr.label,
           log.stderr.name ++ (":"),
           log.stderr.log] ++ acc) []
       else []) ++
      [("-------------Cromwell Links-------------"),
       metadataLink args.server port r.id,
       timingLink args.server port r.id]),
     { args with monitor := true })
  | (none, _, _) =>
    ([("Workflow not found.")], { args with monitor := true })

/-- The fallback of `main` (`choppy.py` lines 747-751): after the
subcommand returns, when `args.monitor` is falsy the result is dumped to
stdout as JSON; otherwise nothing is printed. -/
def main_json_fallback (args_monitor : Bool) (resultDump : String) :
    List String :=
  if args_monitor then [] else [resultDump]

/-! ## call_query (`choppy.py` lines 133-160) -/

/-- Python truthiness of `args.label` (`None` or a list). -/
def listTruthy (l : Option (List String)) : Bool :=
  match l with
  | none => false
  | some [] => false
  | some (_ :: _) => true

/-- The argparse namespace fields `call_query` reads.  The `query`
subparser gives `workflow_id` the string default `"None"` when the
positional argument is omitted (line 602); `none` models Python `None`. -/
structure QueryArgs where
  workflow_id : Option String
  status : Bool
  metadata : Bool
  logs : Bool
  label : Option (List String)
  username : String
  server : String

/-- The engine requests `call_query` issues. -/
inductive QueryEffect where
  | listCall
  | labelQuery (labels : List (String × String))
  | statusQuery (workflow_id : Option String)
  | metadataQuery (workflow_id : Option String)
  | logsQuery (workflow_id : Option String)
deriving DecidableEq, Repr

/-- What `call_query` returns: the delegated `call_list` result, the
label-query result, or the accumulated `responses` list. -/
inductive QueryReturn where
  | listResult
  | labelResult
  | responseList
deriving DecidableEq, Repr

/-- `call_query` (lines 133-160).  The first guard is Python's
`args.workflow_id == None or args.workflow_id == "None" and not args.label`
— `and` binds tighter than `or` — and delegates to `call_list`.  A truthy
label list short-circuits to the label query.  Otherwise the `status`,
`metadata` and `logs` flags each append one response. -/
def call_query (args : QueryArgs) : List QueryEffect × QueryReturn :=
  if args.workflow_id = none ∨
      (args.workflow_id = some ("None") ∧ listTruthy args.label = false) then
    ([QueryEffect.listCall], QueryReturn.listResult)
  else if listTruthy args.label then
    ([QueryEffect.labelQuery ((kv_list_to_dict args.label).getD [])],
     QueryReturn.labelResult)
  else
    ((if args.status then [QueryEffect.statusQuery args.workflow_id] else []) ++
     (if args.metadata then [QueryEffect.metadataQuery args.workflow_id] else []) ++
     (if args.logs then [QueryEffect.logsQuery args.workflow_id] else []),
     QueryReturn.responseList)

/-! ## Derived trace pieces and sample inputs -/

/-- The events of a passing validation step (empty when validation was not
requested). -/
def runValidateTrace (args : RunArgs) : List Event :=
  if args.validate then
    [Event.print ("No errors found in " ++ args.wdl),
     Event.logInfo ("No errors found in " ++ args.wdl)]
  else []

/-- The submission and link-printing events of `call_run`. -/
def runPreTrace (args : RunArgs) (env : RunEnv) : List Event :=
  [Event.submit (runLabels args),
   Event.print ("-------------Cromwell Links-------------"),
   Event.print (metadataLink args.server env.cromwellPort env.submitId),
   Event.print (timingLink args.server env.cromwellPort env.submitId),
   Event.logInfo (("Metadata:") ++ metadataLink args.server env.cromwellPort env.submitId),
   Event.logInfo (("Timing Graph:") ++ timingLink args.server env.cromwellPort env.submitId)]

def sampleRunArgs : RunArgs :=
  { wdl := ("w.wdl"), json := ("i.json"), validate := false,
    label := some [("username:evil"), ("project:demo")], monitor := true,
    interval := 30, extra_options := none, verbose := false, no_notify := false,
    dependencies := none, bucket := ("b"), disable_caching := false,
    server := ("srv"), username := ("alice"), workflow_id := none,
    daemon := false }

def keyErrorEnv : RunEnv :=
  { validatorResult := [], submitId := ("wf-1"), cromwellPort := 8000,
    monitorOutcomes := fun _ => .exn (.keyError ("id")) }

def otherErrorEnv : RunEnv :=
  { validatorResult := [], submitId := ("wf-1"), cromwellPort := 8000,
    monitorOutcomes := fun _ => .exn (.otherExn ("ValueError") ("boom")) }

def badValidateEnv : RunEnv :=
  { validatorResult := [("missing key a"), ("bad type b")], submitId := ("wf-1"),
    cromwellPort := 8000, monitorOutcomes := fun _ => .ok }

/-- An environment where every `call_monitor` invocation is executed
faithfully (`call_monitor_exec`) over a `Monitor` dispatch that raises a
`ValueError` each time. -/
def swallowedErrorEnv : RunEnv :=
  { validatorResult := [], submitId := ("wf-1"), cromwellPort := 8000,
    monitorOutcomes :=
      composedOutcomes (fun _ => .exn (.otherExn ("ValueError") ("boom"))) }

def sampleExplainArgs : ExplainArgs :=
  { workflow_id := ("deadbeef"), server := ("srv"), input := false,
    monitor := false }

def sampleQueryArgsLabel : QueryArgs :=
  { workflow_id := some ("None"), status := true, metadata := true,
    logs := true, label := some [("project:demo")], username := ("alice"),
    server := ("srv") }

def sampleQueryArgsNoLabel : QueryArgs :=
  { workflow_id := some ("None"), status := true, metadata := false,
    logs := false, label := none, username := ("alice"), server := ("srv") }

/-! ## Helper lemmas: dict semantics -/

theorem dictLookup_cons (p : String × String) (d : List (String × String))
    (k : String) :
    dictLookup (p :: d) k = if p.1 = k then some p.2 else dictLookup d k := by
  by_cases hp : p.1 = k <;> simp [dictLookup, List.find?, hp]

theorem dictLookup_map_overwrite (d : List (String × String)) (k v : String)
    (h : d.any (fun p => p.1 = k) = true) :
    dictLookup (d.map (fun p => if p.1 = k then (k, v) else p)) k = some v := by
  induction d with
  | nil => simp at h
  | cons p tl ih =>
    by_cases hp : p.1 = k
    · simp [dictLookup_cons, hp]
    · have htl : tl.any (fun p => p.1 = k) = true := by
        simpa [List.any_cons, hp] using h
      simpa [dictLookup_cons, hp] using ih htl

theorem dictLookup_map_other (d : List (String × String)) (k v k' : String)
    (hk : k' ≠ k) :
    dictLookup (d.map (fun p => if p.1 = k then (k, v) else p)) k' =
      dictLookup d k' := by
  induction d with
  | nil => rfl
  | cons p tl ih =>
    by_cases hp : p.1 = k
    · simp [dictLookup_cons, hp, Ne.symm hk, ih]
    · simp [dictLookup_cons, hp, ih]

theorem dictLookup_append_self (d : List (String × String)) (k v : String)
    (h : d.any (fun p => p.1 = k) = false) :
    dictLookup (d ++ [(k, v)]) k = some v := by
  induction d with
  | nil => simp [dictLookup_cons]
  | cons p tl ih =>
    have hp : ¬ p.1 = k := by
      intro hc
      simp [List.any_cons, hc] at h
    have htl : tl.any (fun p => p.1 = k) = false := by
      simpa [List.any_cons, hp] using h
    simpa [dictLookup_cons, hp] using ih htl

theorem dictLookup_append_other (d : List (String × String)) (k v k' : String)
    (hk : k' ≠ k) :
    dictLookup (d ++ [(k, v)]) k' = dictLookup d k' := by
  induction d with
  | nil => simp [dictLookup_cons, Ne.symm hk, dictLookup]
  | cons p tl ih =>
    by_cases hp : p.1 = k'
    · simp [dictLookup_cons, hp]
    · simp [dictLookup_cons, hp, ih]

theorem dictLookup_dictInsert_self (d : List (String × String)) (k v : String) :
    dictLookup (dictInsert d k v) k = some v := by
  by_cases h : d.any (fun p => p.1 = k) = true
  · simp [dictInsert, h, dictLookup_map_overwrite]
  · have h' : d.any (fun p => p.1 = k) = false := Bool.eq_false_iff.mpr h
    simp [dictInsert, h', dictLookup_append_self]

theorem dictLookup_dictInsert_other (d : List (String × String)) (k v k' : String)
    (hk : k' ≠ k) :
    dictLookup (dictInsert d k v) k' = dictLookup d k' := by
  by_cases h : d.any (fun p => p.1 = k) = true
  · simp [dictInsert, h, dictLookup_map_other _ _ _ _ hk]
  · have h' : d.any (fun p => p.1 = k) = false := Bool.eq_false_iff.mpr h
    simp [dictInsert, h', dictLookup_append_other _ _ _ _ hk]

/-! ## Helper lemmas: the monitor retry loop -/

theorem monitorHandoff_decrement (o : Nat → MonitorOutcome) (r c : Nat)
    (m : String) (h : o c = .exn (.keyError m)) :
    monitorHandoff o (r + 1) c = monitorHandoff o r (c + 1) := by
  simp [monitorHandoff, h]

theorem monitorHandoff_success (o : Nat → MonitorOutcome) (r c : Nat)
    (h : o c = .ok) :
    monitorHandoff o (r + 1) c = (c + 1, none) := by
  simp [monitorHandoff, h]

theorem monitorHandoff_other (o : Nat → MonitorOutcome) (r c : Nat)
    (cls m : String) (h : o c = .exn (.otherExn cls m)) :
    monitorHandoff o (r + 1) c = (c + 1, some (.otherExn cls m)) := by
  simp [monitorHandoff, h]

theorem monitorHandoff_calls_ge (o : Nat → MonitorOutcome) (r c : Nat) :
    c ≤ (monitorHandoff o r c).1 := by
  induction r generalizing c with
  | zero => simp [monitorHandoff]
  | succ r ih =>
    rcases h : o c with _ | e
    · simp [monitorHandoff, h]
    · rcases e with m | ⟨cls, m⟩
      · rw [monitorHandoff_decrement o r c m h]
        exact le_trans (Nat.le_succ c) (ih (c + 1))
      · simp [monitorHandoff, h]

theorem monitorHandoff_calls_ge_succ (o : Nat → MonitorOutcome) (r c : Nat) :
    c + 1 ≤ (monitorHandoff o (r + 1) c).1 := by
  rcases h : o c with _ | e
  · simp [monitorHandoff_success o r c h]
  · rcases e with m | ⟨cls, m⟩
    · rw [monitorHandoff_decrement o r c m h]
      exact monitorHandoff_calls_ge o r (c + 1)
    · simp [monitorHandoff_other o r c cls m h]

theorem monitorHandoff_exhaust (o : Nat → MonitorOutcome)
    (hfail : ∀ i, ∃ m, o i = .exn (.keyError m)) :
    monitorHandoff o 4 0 = (4, none) := by
  obtain ⟨m0, h0⟩ := hfail 0
  obtain ⟨m1, h1⟩ := hfail 1
  obtain ⟨m2, h2⟩ := hfail 2
  obtain ⟨m3, h3⟩ := hfail 3
  rw [monitorHandoff_decrement o 3 0 m0 h0, monitorHandoff_decrement o 2 1 m1 h1,
    monitorHandoff_decrement o 1 2 m2 h2, monitorHandoff_decrement o 0 3 m3 h3]
  rfl

/-! ## Helper lemmas: counting monitor invocations in a trace -/

theorem countMonitorCalls_append (a b : List Event) :
    countMonitorCalls (a ++ b) = countMonitorCalls a + countMonitorCalls b := by
  simp [countMonitorCalls, List.filter_append]

theorem countMonitorCalls_range (n : Nat) :
    countMonitorCalls ((List.range n).map Event.monitorCall) = n := by
  induction n with
  | zero => rfl
  | succ n ih =>
    rw [List.range_succ, List.map_append]
    simp [countMonitorCalls_append, isMonitorCall, countMonitorCalls,
      List.filter] at ih ⊢
    omega

/-! ## Helper lemmas: the shape of the `call_run` trace -/

theorem dictLookup_links_metadata (server wfid : String) (port : Nat) :
    dictLookup (get_cromwell_links server wfid port) ("metadata") =
      some (metadataLink server port wfid) := by
  simp [get_cromwell_links, dictLookup_cons]

theorem dictLookup_links_timing (server wfid : String) (port : Nat) :
    dictLookup (get_cromwell_links server wfid port) ("timing") =
      some (timingLink server port wfid) := by
  simp [get_cromwell_links, dictLookup_cons, dictLookup]

theorem call_run_trace_monitor (args : RunArgs) (env : RunEnv)
    (h : args.validate = false ∨ env.validatorResult = [])
    (hm : args.monitor = true) :
    (call_run args env).1 =
      runValidateTrace args ++ runPreTrace args env ++
      [Event.sleep 5,
       Event.print ("These will also be e-mailed to you when the workflow completes.")] ++
      (List.range (monitorHandoff env.monitorOutcomes monitorRetryInit 0).1).map
        Event.monitorCall := by
  rcases h with h | h
  · simp only [call_run, h, if_false, Bool.false_eq_true, hm, if_true,
      dictLookup_links_metadata, dictLookup_links_timing, Option.getD_some,
      runValidateTrace, runPreTrace]
    split <;> simp
  · by_cases hv : args.validate
    · simp only [call_run, hv, if_true, call_validate, h, List.length_nil,
        ne_eq, not_true_eq_false, if_false, dictLookup_links_metadata,
        dictLookup_links_timing, Option.getD_some, hm,
        runValidateTrace, runPreTrace]
      split <;> simp
    · simp only [call_run, hv, if_false, Bool.false_eq_true, hm, if_true,
        dictLookup_links_metadata, dictLookup_links_timing, Option.getD_some,
        runValidateTrace, runPreTrace]
      split <;> simp

theorem call_run_trace_no_monitor (args : RunArgs) (env : RunEnv)
    (h : args.validate = false ∨ env.validatorResult = [])
    (hm : args.monitor = false) :
    call_run args env =
      (runValidateTrace args ++ runPreTrace args env,
       FlowOutcome.normal, some env.submitId) := by
  rcases h with h | h
  · simp [call_run, h, hm, dictLookup_links_metadata, dictLookup_links_timing,
      runValidateTrace, runPreTrace]
  · by_cases hv : args.validate
    · simp [call_run, hv, call_validate, h, hm, dictLookup_links_metadata,
        dictLookup_links_timing, runValidateTrace, runPreTrace]
    · simp [call_run, hv, hm, dictLookup_links_metadata, dictLookup_links_timing,
        runValidateTrace, runPreTrace]

theorem call_run_outcome_none (args : RunArgs) (env : RunEnv)
    (h : args.validate = false ∨ env.validatorResult = [])
    (hm : args.monitor = true)
    (h2 : (monitorHandoff env.monitorOutcomes monitorRetryInit 0).2 = none) :
    (call_run args env).2 = (FlowOutcome.normal, some env.submitId) := by
  rcases h with h | h
  · simp [call_run, h, hm, h2]
  · by_cases hv : args.validate
    · simp [call_run, hv, call_validate, h, hm, h2]
    · simp [call_run, hv, hm, h2]

theorem call_run_outcome_some (args : RunArgs) (env : RunEnv)
    (h : args.validate = false ∨ env.validatorResult = [])
    (hm : args.monitor = true) (e : ExnClass)
    (h2 : (monitorHandoff env.monitorOutcomes monitorRetryInit 0).2 = some e) :
    (call_run args env).2 = (FlowOutcome.raised e, none) := by
  rcases h with h | h
  · simp [call_run, h, hm, h2]
  · by_cases hv : args.validate
    · simp [call_run, hv, call_validate, h, hm, h2]
    · simp [call_run, hv, hm, h2]

theorem countMonitorCalls_validate (args : RunArgs) :
    countMonitorCalls (runValidateTrace args) = 0 := by
  by_cases hv : args.validate <;>
    simp [runValidateTrace, hv, countMonitorCalls, List.filter, isMonitorCall]

theorem countMonitorCalls_pre (args : RunArgs) (env : RunEnv) :
    countMonitorCalls (runPreTrace args env) = 0 := by
  simp [runPreTrace, countMonitorCalls, List.filter, isMonitorCall]

theorem countMonitorCalls_call_run (args : RunArgs) (env : RunEnv)
    (h : args.validate = false ∨ env.validatorResult = [])
    (hm : args.monitor = true) :
    countMonitorCalls (call_run args env).1 =
      (monitorHandoff env.monitorOutcomes monitorRetryInit 0).1 := by
  rw [call_run_trace_monitor args env h hm]
  simp only [countMonitorCalls_append, countMonitorCalls_validate,
    countMonitorCalls_pre, countMonitorCalls_range]
  simp [countMonitorCalls, List.filter, isMonitorCall]

/-! ## The claims -/

/-- C3: the label mapping `call_run` submits always maps `username` to the
invoking user's username — the entry is written last, so it overwrites any
user-supplied `username` pair — and every other user-supplied pair is
passed through unchanged. -/
theorem run_labels_username_overrides (args : RunArgs) :
    dictLookup (runLabels args) ("username") = some args.username ∧
    ∀ k, k ≠ ("username") →
      dictLookup (runLabels args) k =
        dictLookup ((kv_list_to_dict args.label).getD []) k := by
  exact ⟨dictLookup_dictInsert_self _ _ _,
    fun k hk => dictLookup_dictInsert_other _ _ _ _ hk⟩

/-- Witness for C3 at a concrete label list that tries to override
`username` and supplies one other pair. -/
theorem run_labels_username_overrides_witness :
    dictLookup (runLabels sampleRunArgs) ("username") = some ("alice") ∧
    dictLookup (runLabels sampleRunArgs) ("project") = some ("demo") := by
  have h := run_labels_username_overrides sampleRunArgs
  refine ⟨h.1, ?_⟩
  rw [h.2 ("project") (by decide)]
  decide

/-- C6: when validation is requested, a non-empty validator error list
aborts the whole run flow with exit code 1 before any submission, with a
report joining every error string; an empty list lets the flow proceed to
submission. -/
theorem validation_gate (args : RunArgs) (env : RunEnv)
    (hv : args.validate = true) :
    (env.validatorResult ≠ [] →
      (call_run args env).2.1 = FlowOutcome.exited 1 ∧
      (∀ l, Event.submit l ∉ (call_run args env).1) ∧
      (call_run args env).1 =
        [Event.logCritical (args.json ++ " input file contains the following errors:\n"
          ++ String.intercalate "\n" env.validatorResult)]) ∧
    (env.validatorResult = [] →
      Event.submit (runLabels args) ∈ (call_run args env).1) := by
  constructor
  · intro hr
    have hlen : env.validatorResult.length ≠ 0 := by
      simpa [List.length_eq_zero] using hr
    refine ⟨?_, ?_, ?_⟩ <;>
      simp [call_run, hv, call_validate, hlen]
  · intro hr
    by_cases hm : args.monitor
    · rw [call_run_trace_monitor args env (Or.inr hr) hm]
      by_cases hval : args.validate <;>
        simp [runPreTrace, runValidateTrace, hval]
    · have hm' : args.monitor = false := Bool.eq_false_iff.mpr hm
      rw [call_run_trace_no_monitor args env (Or.inr hr) hm']
      by_cases hval : args.validate <;>
        simp [runPreTrace, runValidateTrace, hval]

/-- Witness for C6: two validator errors abort with exit code 1; no
errors lets the same arguments reach submission. -/
theorem validation_gate_witness :
    (call_run { sampleRunArgs with validate := true } badValidateEnv).2.1 =
      FlowOutcome.exited 1 ∧
    Event.submit (runLabels { sampleRunArgs with validate := true }) ∈
      (call_run { sampleRunArgs with validate := true } keyErrorEnv).1 := by
  refine ⟨((validation_gate { sampleRunArgs with validate := true }
      badValidateEnv rfl).1 (by decide)).1, ?_⟩
  exact (validation_gate { sampleRunArgs with validate := true }
    keyErrorEnv rfl).2 rfl

/-- C7: when monitoring was requested, `call_run` sleeps a fixed 5
seconds after the submission response and before the first monitor
invocation; when monitoring was not requested, no sleep occurs. -/
theorem grace_sleep_before_monitor (args : RunArgs) (env : RunEnv)
    (h : args.validate = false ∨ env.validatorResult = []) :
    (args.monitor = true →
      ∃ pre post, (call_run args env).1 = pre ++ Event.sleep 5 :: post ∧
        Event.submit (runLabels args) ∈ pre ∧
        (∀ i, Event.monitorCall i ∉ pre) ∧
        (∀ n, Event.sleep n ∉ pre)) ∧
    (args.monitor = false →
      ∀ n, Event.sleep n ∉ (call_run args env).1) := by
  constructor
  · intro hm
    refine ⟨runValidateTrace args ++ runPreTrace args env,
      Event.print ("These will also be e-mailed to you when the workflow completes.") ::
        (List.range (monitorHandoff env.monitorOutcomes monitorRetryInit 0).1).map
          Event.monitorCall, ?_, ?_, ?_, ?_⟩
    · rw [call_run_trace_monitor args env h hm]
      simp
    · by_cases hval : args.validate <;>
        simp [runPreTrace, runValidateTrace, hval]
    · intro i
      by_cases hval : args.validate <;>
        simp [runPreTrace, runValidateTrace, hval]
    · intro n
      by_cases hval : args.validate <;>
        simp [runPreTrace, runValidateTrace, hval]
  · intro hm n
    rw [call_run_trace_no_monitor args env h hm]
    by_cases hval : args.validate <;>
      simp [runPreTrace, runValidateTrace, hval]

/-- Witness for C7: with monitoring the trace splits around the grace
sleep; without monitoring no sleep event appears. -/
theorem grace_sleep_before_monitor_witness :
    (∃ pre post, (call_run sampleRunArgs keyErrorEnv).1 =
        pre ++ Event.sleep 5 :: post ∧
      Event.submit (runLabels sampleRunArgs) ∈ pre ∧
      (∀ i, Event.monitorCall i ∉ pre) ∧
      (∀ n, Event.sleep n ∉ pre)) ∧
    (∀ n, Event.sleep n ∉
      (call_run { sampleRunArgs with monitor := false } keyErrorEnv).1) := by
  exact ⟨(grace_sleep_before_monitor sampleRunArgs keyErrorEnv (Or.inl rfl)).1 rfl,
    (grace_sleep_before_monitor { sampleRunArgs with monitor := false }
      keyErrorEnv (Or.inl rfl)).2 rfl⟩

/-- C8: `get_cromwell_links` returns exactly the `metadata` and `timing`
URLs for the given server, port and workflow id, and `call_run` prints
both links for the id returned by submission. -/
theorem cromwell_links_two (server wfid : String) (port : Nat)
    (args : RunArgs) (env : RunEnv)
    (h : args.validate = false ∨ env.validatorResult = []) :
    get_cromwell_links server wfid port =
      [(("metadata"), "http://" ++ server ++ ":" ++ toString port ++
          "/api/workflows/v1/" ++ wfid ++ "/metadata"),
       (("timing"), "http://" ++ server ++ ":" ++ toString port ++
          "/api/workflows/v1/" ++ wfid ++ "/timing")] ∧
    Event.print ("http://" ++ args.server ++ ":" ++ toString env.cromwellPort ++
      "/api/workflows/v1/" ++ env.submitId ++ "/metadata") ∈ (call_run args env).1 ∧
    Event.print ("http://" ++ args.server ++ ":" ++ toString env.cromwellPort ++
      "/api/workflows/v1/" ++ env.submitId ++ "/timing") ∈ (call_run args env).1 := by
  refine ⟨rfl, ?_, ?_⟩ <;>
  · by_cases hm : args.monitor
    · rw [call_run_trace_monitor args env h hm]
      simp [runPreTrace, metadataLink, timingLink]
    · have hm' : args.monitor = false := Bool.eq_false_iff.mpr hm
      rw [call_run_trace_no_monitor args env h hm']
      simp [runPreTrace, metadataLink, timingLink]

/-- Witness for C8 at a concrete server, port and workflow id. -/
theorem cromwell_links_two_witness :
    get_cromwell_links ("srv") ("wf-1") 8000 =
      [(("metadata"), "http://srv:8000/api/workflows/v1/wf-1/metadata"),
       (("timing"), "http://srv:8000/api/workflows/v1/wf-1/timing")] ∧
    Event.print ("http://srv:8000/api/workflows/v1/wf-1/metadata") ∈
      (call_run sampleRunArgs keyErrorEnv).1 := by
  have h := cromwell_links_two ("srv") ("wf-1") 8000 sampleRunArgs keyErrorEnv
    (Or.inl rfl)
  refine ⟨?_, ?_⟩
  · rw [h.1]
    rfl
  · have h2 := h.2.1
    simpa using h2

/-- C1: the monitor retry budget of `call_run` starts at 4; each
`KeyError`-class monitor failure decrements it by one; a successful
monitor call ends the retrying; and after four consecutive `KeyError`
failures the loop exhausts and `call_run` still returns the original
submission result without raising. -/
theorem monitor_retry_exhaustion (args : RunArgs) (env : RunEnv)
    (hm : args.monitor = true) (hv : args.validate = false)
    (hfail : ∀ i, ∃ m, env.monitorOutcomes i = .exn (.keyError m)) :
    monitorRetryInit = 4 ∧
    (∀ o : Nat → MonitorOutcome, ∀ r c m, o c = .exn (.keyError m) →
      monitorHandoff o (r + 1) c = monitorHandoff o r (c + 1)) ∧
    (∀ o : Nat → MonitorOutcome, ∀ r c, o c = .ok →
      monitorHandoff o (r + 1) c = (c + 1, none)) ∧
    (call_run args env).2 = (FlowOutcome.normal, some env.submitId) ∧
    countMonitorCalls (call_run args env).1 = 4 := by
  have hex : monitorHandoff env.monitorOutcomes monitorRetryInit 0 = (4, none) :=
    monitorHandoff_exhaust env.monitorOutcomes hfail
  refine ⟨rfl, monitorHandoff_decrement, monitorHandoff_success, ?_, ?_⟩
  · exact call_run_outcome_none args env (Or.inl hv) hm (by rw [hex])
  · rw [countMonitorCalls_call_run args env (Or.inl hv) hm, hex]

/-- Witness for C1: every monitor invocation raises a `KeyError`; the run
returns the submission result normally after exactly four invocations. -/
theorem monitor_retry_exhaustion_witness :
    (call_run sampleRunArgs keyErrorEnv).2 =
      (FlowOutcome.normal, some ("wf-1")) ∧
    countMonitorCalls (call_run sampleRunArgs keyErrorEnv).1 = 4 := by
  have h := monitor_retry_exhaustion sampleRunArgs keyErrorEnv rfl rfl
    (fun i => ⟨("id"), rfl⟩)
  exact ⟨h.2.2.2.1, h.2.2.2.2⟩

theorem call_monitor_exec_normal (d : MonitorOutcome) :
    (call_monitor_exec d).2 = FlowOutcome.normal := by
  cases d <;> rfl

theorem composedOutcomes_ok (f : Nat → MonitorOutcome) (i : Nat) :
    composedOutcomes f i = MonitorOutcome.ok := by
  unfold composedOutcomes
  rw [call_monitor_exec_normal]

/-- Counterexample to C2 as stated: with the `try/except Exception` of
`call_monitor` (`choppy.py` lines 204-217) modelled faithfully, a
monitor-call error of a non-`KeyError` class is not surfaced to the
caller.  Concretely, every `Monitor` dispatch raises a `ValueError`;
`call_monitor` catches it, routes it to `print_log_exit` and returns
normally; and the whole run flow finishes with the normal outcome and
the original submission result — no exception of any class reaches the
caller of `call_run`. -/
theorem monitor_error_not_surfaced_counterexample :
    (call_monitor_exec (.exn (.otherExn ("ValueError") ("boom")))).2 =
      FlowOutcome.normal ∧
    (call_run sampleRunArgs swallowedErrorEnv).2 =
      (FlowOutcome.normal, some ("wf-1")) ∧
    ∀ e, (call_run sampleRunArgs swallowedErrorEnv).2.1 ≠ FlowOutcome.raised e := by
  have h0 : swallowedErrorEnv.monitorOutcomes 0 = MonitorOutcome.ok := by
    show composedOutcomes
      (fun _ => .exn (.otherExn ("ValueError") ("boom"))) 0 = MonitorOutcome.ok
    exact composedOutcomes_ok _ 0
  have hh : monitorHandoff swallowedErrorEnv.monitorOutcomes monitorRetryInit 0
      = (1, none) :=
    monitorHandoff_success _ 3 0 h0
  have hrun := call_run_outcome_none sampleRunArgs swallowedErrorEnv
    (Or.inl rfl) rfl (by rw [hh])
  refine ⟨rfl, hrun, ?_⟩
  intro e
  rw [hrun]
  simp

/-- C2 (amended): in the retry loop of `call_run` only the `KeyError`
class is retried — an exception of any other class propagating out of a
`call_monitor` invocation would propagate at once, un-retried — but
`call_monitor` itself catches every `Exception` from the `Monitor`
dispatch (lines 204-217) and routes it to `print_log_exit(sys_exit=False)`
without re-raising, so in the composed flow a monitor-call error of
another class is neither retried nor surfaced to the caller: the
hand-off ends normally and `call_run` returns the original submission
result. -/
theorem monitor_retry_class_selective_amended (args : RunArgs) (env : RunEnv)
    (hm : args.monitor = true) (hv : args.validate = false)
    (dispatches : Nat → MonitorOutcome)
    (henv : env.monitorOutcomes = composedOutcomes dispatches) :
    (∀ o : Nat → MonitorOutcome, ∀ r c cls m, o c = .exn (.otherExn cls m) →
      monitorHandoff o (r + 1) c = (c + 1, some (.otherExn cls m))) ∧
    (∀ o : Nat → MonitorOutcome, ∀ r c m, o c = .exn (.keyError m) →
      monitorHandoff o (r + 1) c = monitorHandoff o r (c + 1)) ∧
    (∀ d : MonitorOutcome, (call_monitor_exec d).2 = FlowOutcome.normal) ∧
    (call_run args env).2 = (FlowOutcome.normal, some env.submitId) := by
  have h0 : env.monitorOutcomes 0 = MonitorOutcome.ok := by
    rw [henv]
    exact composedOutcomes_ok dispatches 0
  have hh : monitorHandoff env.monitorOutcomes monitorRetryInit 0 = (1, none) :=
    monitorHandoff_success _ 3 0 h0
  exact ⟨fun o r c cls m h => monitorHandoff_other o r c cls m h,
    fun o r c m h => monitorHandoff_decrement o r c m h,
    call_monitor_exec_normal,
    call_run_outcome_none args env (Or.inl hv) hm (by rw [hh])⟩

/-- Witness for the amended C2: a swallowed `KeyError`-class dispatch,
and the composed flow over an always-`ValueError` dispatch returning the
submission result normally. -/
theorem monitor_retry_class_selective_amended_witness :
    (call_monitor_exec (.exn (.keyError ("id")))).2 = FlowOutcome.normal ∧
    (call_run sampleRunArgs swallowedErrorEnv).2 =
      (FlowOutcome.normal, some ("wf-1")) := by
  have h := monitor_retry_class_selective_amended sampleRunArgs
    swallowedErrorEnv rfl rfl
    (fun _ => .exn (.otherExn ("ValueError") ("boom"))) rfl
  exact ⟨h.2.2.1 _, h.2.2.2⟩

/-- C4: daemon-mode monitoring differs from single-user (user-level)
monitoring only in the owner: `call_monitor` with `daemon` set constructs
the `Monitor` with user `"*"` and performs the same polling and
notification action — same `no_notify`, `verbose` and `interval`, one
shared implementation — as single-user mode with the invoking username.
The last conjunct records that `Monitor.run` and
`Monitor.monitor_user_workflows` denote one shared implementation. -/
theorem daemon_single_user_same_logic (args : MonitorArgs) :
    invocationAction (call_monitor { args with daemon := true }) =
      { invocationAction
          (call_monitor { args with daemon := false, workflow_id := none }) with
        owner := ("*") } ∧
    (invocationAction (call_monitor { args with daemon := true })).owner = ("*") ∧
    (invocationAction
        (call_monitor { args with daemon := false, workflow_id := none })).owner =
      args.username ∧
    (∀ m : MonitorConfig,
      invocationAction (MonitorInvocation.run m) =
        invocationAction (MonitorInvocation.monitor_user_workflows m)) := by
  refine ⟨?_, ?_, ?_, fun m => rfl⟩ <;> simp [call_monitor, invocationAction]

/-- C5: when the engine cannot resolve the workflow id,
`explain_workflow` returns `(none, [], [])` and `call_explain` prints the
single line `Workflow not found.` — no status report, no additional
parameters, no Cromwell links. -/
theorem explain_not_found (engine : String → Option ExplainData)
    (args : ExplainArgs) (port : Nat)
    (h : engine args.workflow_id = none) :
    explain_workflow engine args.workflow_id args.input = (none, [], []) ∧
    (call_explain engine args port).1 = [("Workflow not found.")] ∧
    ("-------------Workflow Status-------------") ∉
      (call_explain engine args port).1 ∧
    ("-------------Additional Parameters-------------") ∉
      (call_explain engine args port).1 ∧
    ("-------------Cromwell Links-------------") ∉
      (call_explain engine args port).1 := by
  have he : explain_workflow engine args.workflow_id args.input = (none, [], []) := by
    simp [explain_workflow, h]
  refine ⟨he, ?_, ?_, ?_, ?_⟩ <;> simp [call_explain, he]

/-- Witness for C5: an engine that resolves nothing yields exactly the
not-found line. -/
theorem explain_not_found_witness :
    (call_explain (fun _ => none) sampleExplainArgs 8000).1 =
      [("Workflow not found.")] := by
  exact (explain_not_found (fun _ => none) sampleExplainArgs 8000 rfl).2.1

/-- C10: `call_explain` sets `args.monitor` to `True` before returning in
both branches, so the fallback JSON dump of `main` prints nothing after an
explain invocation. -/
theorem explain_sets_monitor (engine : String → Option ExplainData)
    (args : ExplainArgs) (port : Nat) (resultDump : String) :
    ((call_explain engine args port).2).monitor = true ∧
    main_json_fallback ((call_explain engine args port).2).monitor resultDump
      = [] := by
  have hmon : ((call_explain engine args port).2).monitor = true := by
    rcases he : explain_workflow engine args.workflow_id args.input with ⟨r, a, s⟩
    cases r <;> simp [call_explain, he]
  exact ⟨hmon, by simp [main_json_fallback, hmon]⟩

/-- C9: a truthy label list makes `call_query` return only the
label-query result, issuing no status, metadata or logs queries even when
those flags are set; with no workflow id (the CLI default string `"None"`)
and no labels it delegates to the list operation. -/
theorem query_label_short_circuit (args : QueryArgs) :
    (listTruthy args.label = true → args.workflow_id ≠ none →
      (call_query args).2 = QueryReturn.labelResult ∧
      (call_query args).1 =
        [QueryEffect.labelQuery ((kv_list_to_dict args.label).getD [])] ∧
      (∀ i, QueryEffect.statusQuery i ∉ (call_query args).1) ∧
      (∀ i, QueryEffect.metadataQuery i ∉ (call_query args).1) ∧
      (∀ i, QueryEffect.logsQuery i ∉ (call_query args).1)) ∧
    (args.workflow_id = some ("None") → listTruthy args.label = false →
      (call_query args).1 = [QueryEffect.listCall] ∧
      (call_query args).2 = QueryReturn.listResult) := by
  constructor
  · intro hl hw
    have hcond : ¬ (args.workflow_id = none ∨
        (args.workflow_id = some ("None") ∧ listTruthy args.label = false)) := by
      rintro (hc | ⟨hc1, hc2⟩)
      · exact hw hc
      · rw [hl] at hc2
        cases hc2
    refine ⟨?_, ?_, ?_, ?_, ?_⟩ <;> simp [call_query, hcond, hl, hw]
  · intro hw hl
    constructor <;> simp [call_query, hw, hl]

/-- Witness for C9: with a label supplied (and status/metadata/logs flags
set) the return is the label result; with neither id nor labels the call
delegates to the list operation. -/
theorem query_label_short_circuit_witness :
    (call_query sampleQueryArgsLabel).2 = QueryReturn.labelResult ∧
    (call_query sampleQueryArgsNoLabel).2 = QueryReturn.listResult := by
  exact ⟨((query_label_short_circuit sampleQueryArgsLabel).1 rfl
      (by simp [sampleQueryArgsLabel])).1,
    ((query_label_short_circuit sampleQueryArgsNoLabel).2 rfl rfl).2⟩

end Choppy
